import Mathlib

/-!
Verification development for the claude-concilium repository.

The repository consists of three MCP servers, each wrapping an external CLI
tool: `servers/mcp-openai/server.js` (functions `detectError`,
`extractResponse`, `runCodex`, tool handler `openai_chat`),
`servers/mcp-qwen/server.js` (`detectError`, `runQwen`, `qwen_chat`) and the
gemini server (`detectError`, `runGemini`, `gemini_chat`, constant
`MAX_BUFFER`).

The embedding below translates those JavaScript functions into Lean:

* String helpers model the JavaScript string primitives actually used by the
  code (`toLowerCase`, `includes`, `slice(-n)`, `split`, `trim`, template
  concatenation).  All pattern strings in the source are ASCII, so the
  ASCII-only `toLowerCase` model is exact on every input the classifiers
  distinguish.
* Each `run*` executor (a `new Promise` with `spawn`, `data` handlers, a main
  timeout timer and a nested 5 second SIGKILL escalation timer) is modelled as
  a state machine driven by a list of events (stdout/stderr data chunks, timer
  firings, process close, spawn error).  The state records the two
  accumulation buffers, the `killed` flag, whether each timer is still armed,
  and the settled promise value (`none` while pending, `Except.error` for a
  rejection, `Except.ok` for a resolution).  Guards in the step function model
  JavaScript semantics only: a cleared or already-fired timer cannot fire, and
  a settled promise ignores later resolve/reject calls; everything else is a
  direct transcription of the handler bodies.
* Each tool handler (`openai_chat`, `qwen_chat`, `gemini_chat`) is modelled as
  a function from the executor promise result (plus, for openai, the content
  of its `-o` output file) to the MCP result object `{text, isError}`.
  Logging and temp-file unlinking are side effects with no influence on the
  returned value and are outside the model.
-/

/-- Model of the JavaScript ASCII lower-casing of one character, as performed
by `String.prototype.toLowerCase` on ASCII input. -/
def jsCharToLower (c : Char) : Char :=
  if 65 ≤ c.toNat ∧ c.toNat ≤ 90 then Char.ofNat (c.toNat + 32) else c

/-- Model of `String.prototype.toLowerCase` (ASCII range; all patterns the
classifiers match are ASCII). -/
def jsToLower (s : String) : String :=
  String.mk (s.data.map jsCharToLower)

/-- Does `pat` match at the head of `hay`? -/
def matchesAt : List Char → List Char → Bool
  | [], _ => true
  | _ :: _, [] => false
  | p :: ps, h :: hs => p == h && matchesAt ps hs

/-- Does `hay` contain `pat` as a contiguous substring? -/
def containsSub : List Char → List Char → Bool
  | [], pat => pat.isEmpty
  | h :: hs, pat => matchesAt pat (h :: hs) || containsSub hs pat

/-- Model of `String.prototype.includes`. -/
def jsIncludes (hay pat : String) : Bool :=
  containsSub hay.data pat.data

/-- Model of `String.prototype.slice(-n)`: the last `n` characters (the whole
string when it is shorter than `n`). -/
def jsSliceNeg (s : String) (n : Nat) : String :=
  String.mk (s.data.drop (s.data.length - n))

/-- Model of `String.prototype.trim` (the whitespace characters appearing in
the outputs handled by this code are the ASCII ones). -/
def jsTrim (s : String) : String :=
  String.mk (((s.data.dropWhile Char.isWhitespace).reverse.dropWhile Char.isWhitespace).reverse)

/-- Model of `String.prototype.startsWith`. -/
def jsStartsWith (s pat : String) : Bool :=
  matchesAt pat.data s.data

/-- Auxiliary scan for `jsSplitLines`. -/
def splitLinesAux : List Char → List Char → List String
  | [], acc => [String.mk acc.reverse]
  | c :: cs, acc =>
      if c = '\n' then String.mk acc.reverse :: splitLinesAux cs []
      else splitLinesAux cs (c :: acc)

/-- Model of `String.prototype.split("\n")`. -/
def jsSplitLines (s : String) : List String :=
  splitLinesAux s.data []

/-- Model of `Array.prototype.join("\n")`. -/
def joinLines : List String → String
  | [] => ""
  | [s] => s
  | s :: rest => s ++ "\n" ++ joinLines rest

/-- An apostrophe character, used inside message strings. -/
def apos : String :=
  String.mk [Char.ofNat 39]

/-- Concatenation of a list of strings. -/
def strConcat : List String → String
  | [] => ""
  | s :: rest => s ++ strConcat rest

/-- The value a JavaScript `detectError` returns when it detects an error:
an object `isError: true, errorType, message`; `Option` models the
`null` case, so only `errorType` and `message` remain. -/
structure DetectedError where
  errorType : String
  message : String
deriving Repr, DecidableEq

/-- The MCP tool result actually built by each handler:
`content: [text]` plus the optional `isError: true` flag. -/
structure MCPResult where
  text : String
  isError : Bool
deriving Repr, DecidableEq

/-- The object each executor resolves with: `{ stdout, stderr, exitCode }`.
Note there is no `timedOut` field in the source; a timed-out run is a
promise rejection instead. -/
structure ProcessOutcome where
  stdout : String
  stderr : String
  exitCode : Int
deriving Repr, DecidableEq

/-- Events driving one executor run: stdout/stderr chunks, the main timeout
timer firing, the 5 second SIGKILL escalation timer firing, process close
with an exit code, and a spawn error. -/
inductive ExecEvent where
  | data_out (s : String)
  | data_err (s : String)
  | timerFire
  | killTimerFire
  | close (exitCode : Int)
  | procError (msg : String)
deriving Repr, DecidableEq

deriving instance DecidableEq for Except

/-- State of one executor run: the closure variables `stdout`, `stderr`,
`killed` of the JavaScript promise executor, whether the main timer and the
escalation timer are armed, and the settled promise value (`none` while
pending). -/
structure ExecState where
  stdout : String
  stderr : String
  killed : Bool
  timerActive : Bool
  killTimerActive : Bool
  result : Option (Except String ProcessOutcome)
deriving Repr, DecidableEq

/-- Initial executor state: empty buffers, main timer armed by `setTimeout`. -/
def initExecState : ExecState :=
  ⟨"", "", false, true, false, none⟩

namespace Qwen

/-- The rejection message built in runQwen when the timeout killed the
process. -/
def timeoutMsg (timeoutMs : Nat) (stdout : String) : String :=
  "Qwen killed after " ++ toString (timeoutMs / 1000) ++ "s timeout. Partial: " ++ jsSliceNeg stdout 200

/-- One step of the runQwen promise executor, from servers/mcp-qwen/server.js.
Data handlers append to the buffers (no cap).  The main timer sets `killed`,
sends SIGTERM and arms the escalation timer; the escalation timer is never
stored or cleared in this server.  `close` clears only the main timer and
settles the promise; `error` clears only the main timer and rejects. -/
def qwenStep (timeoutMs : Nat) (st : ExecState) (e : ExecEvent) : ExecState :=
  match e with
  | ExecEvent.data_out s => { st with stdout := st.stdout ++ s }
  | ExecEvent.data_err s => { st with stderr := st.stderr ++ s }
  | ExecEvent.timerFire =>
      if st.timerActive then
        { st with killed := true, timerActive := false, killTimerActive := true }
      else st
  | ExecEvent.killTimerFire =>
      if st.killTimerActive then { st with killTimerActive := false } else st
  | ExecEvent.close exitCode =>
      if st.result.isSome then st
      else
        { st with
          timerActive := false,
          result := some (if st.killed then
              Except.error (timeoutMsg timeoutMs st.stdout)
            else
              Except.ok ⟨st.stdout, st.stderr, exitCode⟩) }
  | ExecEvent.procError msg =>
      if st.result.isSome then st
      else { st with timerActive := false, result := some (Except.error msg) }

/-- A whole runQwen run over a sequence of events. -/
def runQwenModel (timeoutMs : Nat) (events : List ExecEvent) : ExecState :=
  events.foldl (qwenStep timeoutMs) initExecState

/-- First rule of detectError in servers/mcp-qwen/server.js. -/
def quotaPred (text : String) : Bool :=
  jsIncludes text "quota" || jsIncludes text "rate limit" || jsIncludes text "insufficient_quota"

/-- Second rule of detectError in servers/mcp-qwen/server.js. -/
def authPred (text : String) : Bool :=
  jsIncludes text "authentication" || jsIncludes text "invalid api key" || jsIncludes text "unauthorized"

/-- Third rule of detectError in servers/mcp-qwen/server.js. -/
def modelPred (text : String) : Bool :=
  jsIncludes text "model not found" || jsIncludes text "model_not_found"

/-- detectError from servers/mcp-qwen/server.js. -/
def detectError (output : String) : Option DetectedError :=
  let text := jsToLower output
  if quotaPred text then
    some ⟨"QUOTA_EXCEEDED", "Qwen API quota exceeded. Check your DashScope account limits."⟩
  else if authPred text then
    some ⟨"AUTH_ERROR", "Qwen authentication failed. Run " ++ apos ++ "qwen login" ++ apos ++ " or set DASHSCOPE_API_KEY env var."⟩
  else if modelPred text then
    some ⟨"MODEL_NOT_FOUND", "Qwen model not found. Available models: qwen-turbo, qwen-plus, qwen-long."⟩
  else none

/-- The qwen_chat tool handler from servers/mcp-qwen/server.js, as a function
of the runQwen promise result.  The `Except.error` branch is the `catch`
block, which re-runs detectError on the error message. -/
def qwen_chat (execResult : Except String ProcessOutcome) : MCPResult :=
  match execResult with
  | Except.ok o =>
      let combined := o.stdout ++ o.stderr
      match detectError combined with
      | some e => ⟨e.message, true⟩
      | none =>
          let response := jsTrim o.stdout
          if response == "" then
            ⟨"No response from Qwen. Exit: " ++ toString o.exitCode ++ ". Stderr: " ++ jsSliceNeg o.stderr 300, true⟩
          else ⟨response, false⟩
  | Except.error msg =>
      match detectError msg with
      | some e => ⟨e.message, true⟩
      | none => ⟨"Qwen error: " ++ msg, true⟩

end Qwen

namespace Gemini

/-- MAX_BUFFER from the gemini server: 10MB stdout/stderr limit. -/
def MAX_BUFFER : Nat := 10 * 1024 * 1024

/-- The rejection message built in runGemini when the process was killed. -/
def timeoutMsg (timeoutMs : Nat) (stdout : String) : String :=
  "Gemini killed after " ++ toString (timeoutMs / 1000) ++ "s timeout. Partial: " ++ jsSliceNeg stdout 200

/-- One step of the runGemini promise executor (gemini server source).
Unlike the other two servers, each data handler checks its buffer against
MAX_BUFFER and kills the process (setting `killed`) when the buffer exceeds
it, the escalation timer is stored in `killTimer`, and both `close` and
`error` clear both timers. -/
def geminiStep (timeoutMs : Nat) (st : ExecState) (e : ExecEvent) : ExecState :=
  match e with
  | ExecEvent.data_out s =>
      let stdout := st.stdout ++ s
      if stdout.length > MAX_BUFFER then { st with stdout := stdout, killed := true }
      else { st with stdout := stdout }
  | ExecEvent.data_err s =>
      let stderr := st.stderr ++ s
      if stderr.length > MAX_BUFFER then { st with stderr := stderr, killed := true }
      else { st with stderr := stderr }
  | ExecEvent.timerFire =>
      if st.timerActive then
        { st with killed := true, timerActive := false, killTimerActive := true }
      else st
  | ExecEvent.killTimerFire =>
      if st.killTimerActive then { st with killTimerActive := false } else st
  | ExecEvent.close exitCode =>
      if st.result.isSome then st
      else
        { st with
          timerActive := false,
          killTimerActive := false,
          result := some (if st.killed then
              Except.error (timeoutMsg timeoutMs st.stdout)
            else
              Except.ok ⟨st.stdout, st.stderr, exitCode⟩) }
  | ExecEvent.procError msg =>
      if st.result.isSome then st
      else
        { st with
          timerActive := false,
          killTimerActive := false,
          result := some (Except.error msg) }

/-- A whole runGemini run over a sequence of events. -/
def runGeminiModel (timeoutMs : Nat) (events : List ExecEvent) : ExecState :=
  events.foldl (geminiStep timeoutMs) initExecState

/-- First rule of detectError in the gemini server. -/
def quotaPred (text : String) : Bool :=
  jsIncludes text "quota" || jsIncludes text "rate limit" || jsIncludes text "resource_exhausted"

/-- Second rule of detectError in the gemini server. -/
def authPred (text : String) : Bool :=
  jsIncludes text "authentication" || jsIncludes text "not authenticated" || jsIncludes text "login"

/-- detectError from the gemini server. -/
def detectError (output : String) : Option DetectedError :=
  let text := jsToLower output
  if quotaPred text then
    some ⟨"QUOTA_EXCEEDED", "Gemini daily quota exceeded. Free tier: 1000 req/day. Try again tomorrow or use a fallback provider."⟩
  else if authPred text then
    some ⟨"AUTH_REQUIRED", "Gemini not authenticated. Run " ++ apos ++ "gemini" ++ apos ++ " in terminal to login via Google account."⟩
  else none

/-- The gemini_chat tool handler, as a function of the runGemini promise
result.  The `Except.error` branch is the `catch` block, which re-runs
detectError on the error message. -/
def gemini_chat (execResult : Except String ProcessOutcome) : MCPResult :=
  match execResult with
  | Except.ok o =>
      let combined := o.stdout ++ o.stderr
      match detectError combined with
      | some e => ⟨e.message, true⟩
      | none =>
          let response := jsTrim o.stdout
          if response == "" then
            ⟨"No response from Gemini. Exit: " ++ toString o.exitCode ++ ". Stderr: " ++ jsSliceNeg o.stderr 300, true⟩
          else ⟨response, false⟩
  | Except.error msg =>
      match detectError msg with
      | some e => ⟨e.message, true⟩
      | none => ⟨"Gemini error: " ++ msg, true⟩

end Gemini

namespace OpenAI

/-- The rejection message built in runCodex when the timeout killed the
process (note: it slices the concatenation of both buffers). -/
def timeoutMsg (timeoutMs : Nat) (stdout stderr : String) : String :=
  "Process killed after " ++ toString (timeoutMs / 1000) ++ "s timeout. Partial output: " ++ jsSliceNeg (stdout ++ stderr) 200

/-- One step of the runCodex promise executor from
servers/mcp-openai/server.js.  Same shape as runQwen: no buffer cap, and the
escalation timer is never stored or cleared. -/
def codexStep (timeoutMs : Nat) (st : ExecState) (e : ExecEvent) : ExecState :=
  match e with
  | ExecEvent.data_out s => { st with stdout := st.stdout ++ s }
  | ExecEvent.data_err s => { st with stderr := st.stderr ++ s }
  | ExecEvent.timerFire =>
      if st.timerActive then
        { st with killed := true, timerActive := false, killTimerActive := true }
      else st
  | ExecEvent.killTimerFire =>
      if st.killTimerActive then { st with killTimerActive := false } else st
  | ExecEvent.close exitCode =>
      if st.result.isSome then st
      else
        { st with
          timerActive := false,
          result := some (if st.killed then
              Except.error (timeoutMsg timeoutMs st.stdout st.stderr)
            else
              Except.ok ⟨st.stdout, st.stderr, exitCode⟩) }
  | ExecEvent.procError msg =>
      if st.result.isSome then st
      else { st with timerActive := false, result := some (Except.error msg) }

/-- A whole runCodex run over a sequence of events. -/
def runCodexModel (timeoutMs : Nat) (events : List ExecEvent) : ExecState :=
  events.foldl (codexStep timeoutMs) initExecState

/-- Lazy capture of the regex `(.+?)[.\n]` at a fixed start position: extend
the capture one character at a time, stopping at the first period or newline
(which may not be the first character). -/
def lazyCaptureAux : List Char → List Char → Option (List Char)
  | acc, c :: cs =>
      if c = '.' || c = '\n' then some acc.reverse
      else lazyCaptureAux (c :: acc) cs
  | _, [] => none

/-- Attempt the `(.+?)[.\n]` tail of the regex right after the literal: the
first captured character must not be a newline (`.` does not match newlines
in a JavaScript regex), and the capture ends at the first period or newline
after at least one character. -/
def matchCaptureAt (rest : List Char) : Option (List Char) :=
  match rest with
  | [] => none
  | c :: cs => if c = '\n' then none else lazyCaptureAux [c] cs

/-- The literal part of the regex. -/
def tryAgainLit : List Char :=
  ("try again at ").data

/-- Leftmost match of the JavaScript regex `/try again at (.+?)[.\n]/`,
returning the capture group: scan positions left to right, and at each
occurrence of the literal attempt the capture. -/
def findTryAgain : List Char → Option (List Char)
  | [] => none
  | c :: cs =>
      if matchesAt tryAgainLit (c :: cs) then
        match matchCaptureAt ((c :: cs).drop tryAgainLit.length) with
        | some cap => some cap
        | none => findTryAgain cs
      else findTryAgain cs

/-- The reset date extracted in the quota branch of detectError: the regex
capture over the original (not lowercased) output, or "unknown". -/
def resetDateOf (output : String) : String :=
  match findTryAgain output.data with
  | some cap => String.mk cap
  | none => "unknown"

/-- First rule of detectError in servers/mcp-openai/server.js. -/
def quotaPred (text : String) : Bool :=
  jsIncludes text "usage limit" || jsIncludes text "hit your usage limit"

/-- Second rule of detectError in servers/mcp-openai/server.js. -/
def modelPred (text : String) : Bool :=
  jsIncludes text "not supported when using codex with a chatgpt account"

/-- Third rule of detectError in servers/mcp-openai/server.js. -/
def authPred (text : String) : Bool :=
  jsIncludes text "auth" && (jsIncludes text "expired" || jsIncludes text "login")

/-- detectError from servers/mcp-openai/server.js.  The rule predicates run
on the lowercased output; the quota message embeds a date extracted from the
original output by a case-sensitive regex. -/
def detectError (output : String) : Option DetectedError :=
  let combined := jsToLower output
  if quotaPred combined then
    some ⟨"QUOTA_EXCEEDED", "Codex usage limit reached. Credits reset at: " ++ resetDateOf output ++ ". Use a fallback provider."⟩
  else if modelPred combined then
    some ⟨"MODEL_NOT_SUPPORTED", "This model is not available with ChatGPT Plus. Use the default model."⟩
  else if authPred combined then
    some ⟨"AUTH_EXPIRED", "Codex auth token expired. Run " ++ apos ++ "codex login" ++ apos ++ " to re-authenticate."⟩
  else none

/-- Line scan of extractResponse: skip until a line whose trim is "codex",
then collect lines until one starting with "tokens used". -/
def collectResponse : List String → Bool → List String → List String
  | [], _, response => response
  | line :: rest, inResponse, response =>
      if jsTrim line == "codex" then collectResponse rest true response
      else if inResponse && jsStartsWith line "tokens used" then response
      else if inResponse then collectResponse rest inResponse (response ++ [line])
      else collectResponse rest inResponse response

/-- extractResponse from servers/mcp-openai/server.js: prefer the trimmed
output-file content when non-empty, otherwise parse the stdout lines, falling
back to trimmed stdout when no response lines were collected. -/
def extractResponse (stdout outputFileContent : String) : String :=
  if jsTrim outputFileContent == "" then
    let response := collectResponse (jsSplitLines stdout) false []
    if response.length > 0 then jsTrim (joinLines response)
    else jsTrim stdout
  else jsTrim outputFileContent

/-- The openai_chat tool handler from servers/mcp-openai/server.js, as a
function of the runCodex promise result and of the content read back from the
`-o` output file (empty when the read fails).  The `Except.error` branch is
the `catch` block, which re-runs detectError on the error message. -/
def openai_chat (execResult : Except String ProcessOutcome) (outputFileContent : String) : MCPResult :=
  match execResult with
  | Except.ok o =>
      let combined := o.stdout ++ o.stderr
      match detectError combined with
      | some e => ⟨e.message, true⟩
      | none =>
          let response := extractResponse o.stdout outputFileContent
          if response == "" then
            ⟨"No response from Codex. Exit code: " ++ toString o.exitCode ++ ". Output: " ++ jsSliceNeg combined 300, true⟩
          else ⟨response, false⟩
  | Except.error msg =>
      match detectError msg with
      | some e => ⟨e.message, true⟩
      | none => ⟨"Codex error: " ++ msg, true⟩

end OpenAI

namespace SpecModel

/-- Modelled from the spec: the tagged union InvocationResult of section 3,
Success or Failure with a classified error (kind and message).  The Fallback
Chain Orchestrator is not code under src/ — the chain walk is a documented
procedure executed by the calling orchestrator — so it is modelled here from
the words of the spec. -/
inductive InvocationResult where
  | success (text : String)
  | failure (kind : String) (message : String)
deriving Repr, DecidableEq

/-- Modelled from the spec: one chain member, an agent adapter reference
together with the InvocationResult its invocation returns during this walk. -/
structure Agent where
  name : String
  behavior : InvocationResult
deriving Repr, DecidableEq

/-- Modelled from the spec: the ChainAttempt record appended, in order, to
the per-chain attempt log (elapsed time omitted: no claim concerns it). -/
structure ChainAttempt where
  agentName : String
  result : InvocationResult
deriving Repr, DecidableEq

/-- Modelled from the spec: the chain walk of section 4.4.  TRYING(i) invokes
member i; on Success the walk stops (SUCCEEDED); on Failure it advances to
member i+1 when one exists, else stops (EXHAUSTED) with the last failure as
terminal result.  Returns the attempt log and the terminal result (none only
for an empty chain, which the spec's invariants exclude). -/
def chainWalk : List Agent → List ChainAttempt × Option InvocationResult
  | [] => ([], none)
  | a :: rest =>
      match a.behavior with
      | InvocationResult.success t =>
          ([⟨a.name, InvocationResult.success t⟩], some (InvocationResult.success t))
      | InvocationResult.failure k m =>
          match rest with
          | [] => ([⟨a.name, InvocationResult.failure k m⟩], some (InvocationResult.failure k m))
          | _ :: _ =>
              let w := chainWalk rest
              (⟨a.name, InvocationResult.failure k m⟩ :: w.1, w.2)

/-- Modelled from the spec: the ClassifiedError kind enumeration of
section 3, used to compare the spec's taxonomy with the errorType values the
code produces. -/
def specClassifiedErrorKinds : List String :=
  ["QUOTA_EXCEEDED", "AUTH_REQUIRED", "MODEL_UNSUPPORTED", "MODEL_NOT_FOUND", "TIMEOUT", "EMPTY_RESPONSE", "UNKNOWN"]

end SpecModel

/-- Whether a spec-level invocation result is a failure. -/
def SpecModel.isFailure : SpecModel.InvocationResult → Bool
  | SpecModel.InvocationResult.success _ => false
  | SpecModel.InvocationResult.failure _ _ => true

/-- A string one character longer than the gemini buffer cap, used to
exercise the cap. -/
def bigChunk : String :=
  String.mk (List.replicate (Gemini.MAX_BUFFER + 1) 'a')

/-- A list of stdout (`true`) and stderr (`false`) chunks, as executor data
events. -/
def dataEvents (writes : List (Bool × String)) : List ExecEvent :=
  writes.map (fun w => if w.1 then ExecEvent.data_out w.2 else ExecEvent.data_err w.2)

/-- The stdout portion of a list of chunks, concatenated. -/
def outConcat (writes : List (Bool × String)) : String :=
  strConcat (writes.map (fun w => if w.1 then w.2 else ""))

/-- The stderr portion of a list of chunks, concatenated. -/
def errConcat (writes : List (Bool × String)) : String :=
  strConcat (writes.map (fun w => if w.1 then "" else w.2))

/-- A property preserved by every step of a fold holds of the fold result. -/
theorem foldlInvariant {σ E : Type} (f : σ → E → σ) (P : σ → Prop)
    (hstep : ∀ st e, P st → P (f st e)) :
    ∀ (evs : List E) (st : σ), P st → P (List.foldl f st evs)
  | [], _, h => h
  | e :: evs, st, h => foldlInvariant f P hstep evs (f st e) (hstep st e h)

/-- Once a runGemini run has settled, both of its timers are disarmed; every
step preserves this. -/
theorem geminiStepInv (ms : Nat) (st : ExecState) (e : ExecEvent)
    (h : st.result.isSome = true → st.timerActive = false ∧ st.killTimerActive = false) :
    (Gemini.geminiStep ms st e).result.isSome = true →
      (Gemini.geminiStep ms st e).timerActive = false ∧
        (Gemini.geminiStep ms st e).killTimerActive = false := by
  cases e <;> simp only [Gemini.geminiStep] <;> (try split_ifs with h1) <;> simp_all

/-- Once a runCodex run has settled, its main timer is disarmed; every step
preserves this. -/
theorem codexStepInvMain (ms : Nat) (st : ExecState) (e : ExecEvent)
    (h : st.result.isSome = true → st.timerActive = false) :
    (OpenAI.codexStep ms st e).result.isSome = true →
      (OpenAI.codexStep ms st e).timerActive = false := by
  cases e <;> simp only [OpenAI.codexStep] <;> (try split_ifs with h1) <;> simp_all

/-- Once a runQwen run has settled, its main timer is disarmed; every step
preserves this. -/
theorem qwenStepInvMain (ms : Nat) (st : ExecState) (e : ExecEvent)
    (h : st.result.isSome = true → st.timerActive = false) :
    (Qwen.qwenStep ms st e).result.isSome = true →
      (Qwen.qwenStep ms st e).timerActive = false := by
  cases e <;> simp only [Qwen.qwenStep] <;> (try split_ifs with h1) <;> simp_all

/-- Unfolding lemma for `dataEvents`. -/
theorem dataEvents_cons (b : Bool) (s : String) (rest : List (Bool × String)) :
    dataEvents ((b, s) :: rest)
      = (if b then ExecEvent.data_out s else ExecEvent.data_err s) :: dataEvents rest := rfl

/-- Unfolding lemma for `outConcat`. -/
theorem outConcat_cons (b : Bool) (s : String) (rest : List (Bool × String)) :
    outConcat ((b, s) :: rest) = (if b then s else "") ++ outConcat rest := rfl

/-- Unfolding lemma for `errConcat`. -/
theorem errConcat_cons (b : Bool) (s : String) (rest : List (Bool × String)) :
    errConcat ((b, s) :: rest) = (if b then "" else s) ++ errConcat rest := rfl

/-- Folding runCodex data events from a pending state appends the chunks to
the respective buffers and changes nothing else. -/
theorem codexDataFold (ms : Nat) :
    ∀ (writes : List (Bool × String)) (so se : String),
      List.foldl (OpenAI.codexStep ms) ⟨so, se, false, true, false, none⟩ (dataEvents writes)
        = ⟨so ++ outConcat writes, se ++ errConcat writes, false, true, false, none⟩
  | [], so, se => by simp [dataEvents, outConcat, errConcat, strConcat]
  | (b, s) :: rest, so, se => by
      cases b
      case false =>
        rw [dataEvents_cons, outConcat_cons, errConcat_cons]
        rw [if_neg (by simp), if_neg (by simp), if_neg (by simp), List.foldl_cons]
        rw [show OpenAI.codexStep ms ⟨so, se, false, true, false, none⟩ (ExecEvent.data_err s)
              = ⟨so, se ++ s, false, true, false, none⟩ from rfl]
        rw [codexDataFold ms rest so (se ++ s)]
        simp [String.append_assoc]
      case true =>
        rw [dataEvents_cons, outConcat_cons, errConcat_cons]
        rw [if_pos rfl, if_pos rfl, if_pos rfl, List.foldl_cons]
        rw [show OpenAI.codexStep ms ⟨so, se, false, true, false, none⟩ (ExecEvent.data_out s)
              = ⟨so ++ s, se, false, true, false, none⟩ from rfl]
        rw [codexDataFold ms rest (so ++ s) se]
        simp [String.append_assoc]

/-- Folding runQwen data events from a pending state appends the chunks to
the respective buffers and changes nothing else. -/
theorem qwenDataFold (ms : Nat) :
    ∀ (writes : List (Bool × String)) (so se : String),
      List.foldl (Qwen.qwenStep ms) ⟨so, se, false, true, false, none⟩ (dataEvents writes)
        = ⟨so ++ outConcat writes, se ++ errConcat writes, false, true, false, none⟩
  | [], so, se => by simp [dataEvents, outConcat, errConcat, strConcat]
  | (b, s) :: rest, so, se => by
      cases b
      case false =>
        rw [dataEvents_cons, outConcat_cons, errConcat_cons]
        rw [if_neg (by simp), if_neg (by simp), if_neg (by simp), List.foldl_cons]
        rw [show Qwen.qwenStep ms ⟨so, se, false, true, false, none⟩ (ExecEvent.data_err s)
              = ⟨so, se ++ s, false, true, false, none⟩ from rfl]
        rw [qwenDataFold ms rest so (se ++ s)]
        simp [String.append_assoc]
      case true =>
        rw [dataEvents_cons, outConcat_cons, errConcat_cons]
        rw [if_pos rfl, if_pos rfl, if_pos rfl, List.foldl_cons]
        rw [show Qwen.qwenStep ms ⟨so, se, false, true, false, none⟩ (ExecEvent.data_out s)
              = ⟨so ++ s, se, false, true, false, none⟩ from rfl]
        rw [qwenDataFold ms rest (so ++ s) se]
        simp [String.append_assoc]

/-- Folding runGemini data events from a pending state appends the chunks to
the respective buffers, leaves the timers and the pending result unchanged,
and possibly sets the killed flag (when a buffer crossed the cap). -/
theorem geminiDataFold (ms : Nat) :
    ∀ (writes : List (Bool × String)) (so se : String) (k : Bool),
      ∃ k2 : Bool,
        List.foldl (Gemini.geminiStep ms) ⟨so, se, k, true, false, none⟩ (dataEvents writes)
          = ⟨so ++ outConcat writes, se ++ errConcat writes, k2, true, false, none⟩
  | [], so, se, k => ⟨k, by simp [dataEvents, outConcat, errConcat, strConcat]⟩
  | (b, s) :: rest, so, se, k => by
      cases b
      case false =>
        rw [dataEvents_cons, outConcat_cons, errConcat_cons]
        rw [if_neg (by simp), if_neg (by simp), if_neg (by simp), List.foldl_cons]
        have hstep : Gemini.geminiStep ms ⟨so, se, k, true, false, none⟩ (ExecEvent.data_err s)
            = ⟨so, se ++ s,
                if (se ++ s).length > Gemini.MAX_BUFFER then true else k, true, false, none⟩ := by
          simp only [Gemini.geminiStep]
          split_ifs <;> rfl
        rw [hstep]
        obtain ⟨k2, hk⟩ := geminiDataFold ms rest so (se ++ s)
          (if (se ++ s).length > Gemini.MAX_BUFFER then true else k)
        exact ⟨k2, by rw [hk]; simp [String.append_assoc]⟩
      case true =>
        rw [dataEvents_cons, outConcat_cons, errConcat_cons]
        rw [if_pos rfl, if_pos rfl, if_pos rfl, List.foldl_cons]
        have hstep : Gemini.geminiStep ms ⟨so, se, k, true, false, none⟩ (ExecEvent.data_out s)
            = ⟨so ++ s, se,
                if (so ++ s).length > Gemini.MAX_BUFFER then true else k, true, false, none⟩ := by
          simp only [Gemini.geminiStep]
          split_ifs <;> rfl
        rw [hstep]
        obtain ⟨k2, hk⟩ := geminiDataFold ms rest (so ++ s) se
          (if (so ++ s).length > Gemini.MAX_BUFFER then true else k)
        exact ⟨k2, by rw [hk]; simp [String.append_assoc]⟩

/-- A runGemini run over data events only: the buffers hold the concatenated
chunks and the run is still pending. -/
theorem geminiDataFoldInit (ms : Nat) (writes : List (Bool × String)) :
    ∃ k2 : Bool,
      Gemini.runGeminiModel ms (dataEvents writes)
        = ⟨outConcat writes, errConcat writes, k2, true, false, none⟩ := by
  obtain ⟨k2, hk⟩ := geminiDataFold ms writes "" "" false
  refine ⟨k2, ?_⟩
  rw [Gemini.runGeminiModel,
    show (initExecState : ExecState) = ⟨"", "", false, true, false, none⟩ from rfl, hk]
  simp

/-- In runGemini, a buffer beyond the cap implies the killed flag is set;
every step preserves this. -/
theorem geminiStepInvKilled (ms : Nat) (st : ExecState) (e : ExecEvent)
    (h : (st.stdout.length > Gemini.MAX_BUFFER → st.killed = true) ∧
      (st.stderr.length > Gemini.MAX_BUFFER → st.killed = true)) :
    ((Gemini.geminiStep ms st e).stdout.length > Gemini.MAX_BUFFER →
        (Gemini.geminiStep ms st e).killed = true) ∧
      ((Gemini.geminiStep ms st e).stderr.length > Gemini.MAX_BUFFER →
        (Gemini.geminiStep ms st e).killed = true) := by
  cases e <;> simp only [Gemini.geminiStep] <;> (try split_ifs) <;> simp_all

/-- Any runGemini run whose accumulated stdout or stderr exceeds the cap has
the killed flag set. -/
theorem geminiKilledOnOverflow (ms : Nat) (evs : List ExecEvent) :
    ((Gemini.runGeminiModel ms evs).stdout.length > Gemini.MAX_BUFFER →
        (Gemini.runGeminiModel ms evs).killed = true) ∧
      ((Gemini.runGeminiModel ms evs).stderr.length > Gemini.MAX_BUFFER →
        (Gemini.runGeminiModel ms evs).killed = true) :=
  foldlInvariant (Gemini.geminiStep ms)
    (fun st => (st.stdout.length > Gemini.MAX_BUFFER → st.killed = true) ∧
      (st.stderr.length > Gemini.MAX_BUFFER → st.killed = true))
    (geminiStepInvKilled ms) evs initExecState
    (by constructor <;> intro h <;> simp [initExecState] at h)

/-- C1 counterexample: a qwen run whose Executor timed out (the main timer
fired and the process was killed) is NOT short-circuited to a timeout
failure: the catch block classifies the rejection message, whose embedded
partial output contains "rate limit", so the invocation returns the
QUOTA_EXCEEDED quota message instead of a timeout result. -/
theorem C1_counterexample :
    (Qwen.runQwenModel 120000
        [ExecEvent.data_out "rate limit", ExecEvent.timerFire, ExecEvent.close 143]).result
      = some (Except.error ("Qwen killed after 120s timeout. Partial: rate limit")) ∧
    Qwen.qwen_chat (Except.error ("Qwen killed after 120s timeout. Partial: rate limit"))
      = ⟨"Qwen API quota exceeded. Check your DashScope account limits.", true⟩ := by
  decide

/-- C1 amended: an invocation whose Executor run rejected (as every timed-out
run does) always returns an error result (isError = true), but the result is
produced by running the classifier on the rejection message, not by a
timeout short-circuit, so its message can be a classified kind such as
QUOTA_EXCEEDED. -/
theorem C1_amended_timeout_is_error :
    (∀ (ms : Nat) (evs : List ExecEvent) (msg : String),
        (OpenAI.runCodexModel ms evs).result = some (Except.error msg) →
        (OpenAI.openai_chat (Except.error msg) "").isError = true) ∧
    (∀ (ms : Nat) (evs : List ExecEvent) (msg : String),
        (Qwen.runQwenModel ms evs).result = some (Except.error msg) →
        (Qwen.qwen_chat (Except.error msg)).isError = true) ∧
    (∀ (ms : Nat) (evs : List ExecEvent) (msg : String),
        (Gemini.runGeminiModel ms evs).result = some (Except.error msg) →
        (Gemini.gemini_chat (Except.error msg)).isError = true) := by
  refine ⟨fun ms evs msg _ => ?_, fun ms evs msg _ => ?_, fun ms evs msg _ => ?_⟩
  · simp only [OpenAI.openai_chat]
    cases OpenAI.detectError msg <;> simp
  · simp only [Qwen.qwen_chat]
    cases Qwen.detectError msg <;> simp
  · simp only [Gemini.gemini_chat]
    cases Gemini.detectError msg <;> simp

/-- C1 amended witness: concrete timed-out runs for all three executors,
each yielding an error result. -/
theorem C1_amended_witness :
    (OpenAI.runCodexModel 90000 [ExecEvent.timerFire, ExecEvent.close 143]).result
        = some (Except.error ("Process killed after 90s timeout. Partial output: ")) ∧
    (OpenAI.openai_chat (Except.error ("Process killed after 90s timeout. Partial output: ")) "").isError = true ∧
    (Qwen.qwen_chat (Except.error ("Qwen killed after 90s timeout. Partial: "))).isError = true ∧
    (Gemini.gemini_chat (Except.error ("Gemini killed after 90s timeout. Partial: "))).isError = true :=
  ⟨by decide,
   C1_amended_timeout_is_error.1 90000 [ExecEvent.timerFire, ExecEvent.close 143]
     ("Process killed after 90s timeout. Partial output: ") (by decide),
   C1_amended_timeout_is_error.2.1 90000 [ExecEvent.timerFire, ExecEvent.close 143]
     ("Qwen killed after 90s timeout. Partial: ") (by decide),
   C1_amended_timeout_is_error.2.2 90000 [ExecEvent.timerFire, ExecEvent.close 143]
     ("Gemini killed after 90s timeout. Partial: ") (by decide)⟩

/-- C2 counterexample: runCodex has no buffer cap at all.  A run whose
process writes 10 MiB + 1 characters to stdout is not terminated
(killed stays false), the content is kept in full (not truncated at the
cap), and the run resolves normally rather than as a timeout. -/
theorem C2_counterexample :
    bigChunk.length > Gemini.MAX_BUFFER ∧
    (OpenAI.runCodexModel 90000 [ExecEvent.data_out bigChunk, ExecEvent.close 0]).killed = false ∧
    (OpenAI.runCodexModel 90000 [ExecEvent.data_out bigChunk, ExecEvent.close 0]).result
      = some (Except.ok ⟨bigChunk, "", 0⟩) := by
  refine ⟨?_, ?_, ?_⟩
  · rw [bigChunk, String.length_mk, List.length_replicate]
    decide
  · simp [OpenAI.runCodexModel, OpenAI.codexStep, initExecState]
  · simp [OpenAI.runCodexModel, OpenAI.codexStep, initExecState]

/-- C2 amended: only runGemini enforces the 10 MiB cap, and it does so by
killing the process once either buffer (stdout or stderr, accumulated over
any sequence of chunks) exceeds the cap; the accumulated content is kept in
full (not truncated at the cap) and the run then rejects with the same
timeout-style message as a timed-out run.  runCodex and runQwen have no cap:
for any sequence of chunks, however large, the process is not killed and the
run resolves normally with the full content and the real exit code. -/
theorem C2_amended_cap_behavior :
    (∀ (ms : Nat) (writes : List (Bool × String)) (c : Int),
        (outConcat writes).length > Gemini.MAX_BUFFER ∨
            (errConcat writes).length > Gemini.MAX_BUFFER →
        (Gemini.runGeminiModel ms (dataEvents writes ++ [ExecEvent.close c])).killed = true ∧
        (Gemini.runGeminiModel ms (dataEvents writes ++ [ExecEvent.close c])).stdout
          = outConcat writes ∧
        (Gemini.runGeminiModel ms (dataEvents writes ++ [ExecEvent.close c])).stderr
          = errConcat writes ∧
        (Gemini.runGeminiModel ms (dataEvents writes ++ [ExecEvent.close c])).result
          = some (Except.error (Gemini.timeoutMsg ms (outConcat writes)))) ∧
    (∀ (ms : Nat) (writes : List (Bool × String)) (c : Int),
        (Qwen.runQwenModel ms (dataEvents writes ++ [ExecEvent.close c])).killed = false ∧
        (Qwen.runQwenModel ms (dataEvents writes ++ [ExecEvent.close c])).result
          = some (Except.ok ⟨outConcat writes, errConcat writes, c⟩)) ∧
    (∀ (ms : Nat) (writes : List (Bool × String)) (c : Int),
        (OpenAI.runCodexModel ms (dataEvents writes ++ [ExecEvent.close c])).killed = false ∧
        (OpenAI.runCodexModel ms (dataEvents writes ++ [ExecEvent.close c])).result
          = some (Except.ok ⟨outConcat writes, errConcat writes, c⟩)) := by
  refine ⟨fun ms writes c h => ?_, fun ms writes c => ?_, fun ms writes c => ?_⟩
  · obtain ⟨k2, hfold⟩ := geminiDataFoldInit ms writes
    have hkill := geminiKilledOnOverflow ms (dataEvents writes)
    rw [hfold] at hkill
    have hk2 : k2 = true := h.elim hkill.1 hkill.2
    subst hk2
    have hrun : Gemini.runGeminiModel ms (dataEvents writes ++ [ExecEvent.close c])
        = ⟨outConcat writes, errConcat writes, true, false, false,
            some (Except.error (Gemini.timeoutMsg ms (outConcat writes)))⟩ := by
      rw [Gemini.runGeminiModel] at hfold ⊢
      rw [List.foldl_append, hfold]
      simp [Gemini.geminiStep]
    rw [hrun]
    exact ⟨rfl, rfl, rfl, rfl⟩
  · rw [Qwen.runQwenModel, List.foldl_append,
      show (initExecState : ExecState) = ⟨"", "", false, true, false, none⟩ from rfl,
      qwenDataFold ms writes "" ""]
    constructor <;> simp [Qwen.qwenStep]
  · rw [OpenAI.runCodexModel, List.foldl_append,
      show (initExecState : ExecState) = ⟨"", "", false, true, false, none⟩ from rfl,
      codexDataFold ms writes "" ""]
    constructor <;> simp [OpenAI.codexStep]

/-- C2 amended witness: a stdout over-cap chunk and a stderr over-cap chunk
each trigger the gemini kill path, while the same over-cap chunk leaves a
qwen run unkilled and normally resolved. -/
theorem C2_amended_witness :
    (outConcat [(true, bigChunk)]).length > Gemini.MAX_BUFFER ∧
    (Gemini.runGeminiModel 90000 (dataEvents [(true, bigChunk)] ++ [ExecEvent.close 0])).killed = true ∧
    (Gemini.runGeminiModel 90000 (dataEvents [(true, bigChunk)] ++ [ExecEvent.close 0])).result
      = some (Except.error (Gemini.timeoutMsg 90000 (outConcat [(true, bigChunk)]))) ∧
    (errConcat [(false, bigChunk)]).length > Gemini.MAX_BUFFER ∧
    (Gemini.runGeminiModel 90000 (dataEvents [(false, bigChunk)] ++ [ExecEvent.close 0])).killed = true ∧
    (Qwen.runQwenModel 90000 (dataEvents [(true, bigChunk)] ++ [ExecEvent.close 0])).killed = false ∧
    (Qwen.runQwenModel 90000 (dataEvents [(true, bigChunk)] ++ [ExecEvent.close 0])).result
      = some (Except.ok ⟨outConcat [(true, bigChunk)], errConcat [(true, bigChunk)], 0⟩) :=
  have ho : (outConcat [(true, bigChunk)]).length > Gemini.MAX_BUFFER := by
    rw [show outConcat [(true, bigChunk)] = bigChunk ++ "" from rfl]
    rw [show bigChunk ++ "" = bigChunk by simp]
    rw [bigChunk, String.length_mk, List.length_replicate]
    decide
  have he : (errConcat [(false, bigChunk)]).length > Gemini.MAX_BUFFER := by
    rw [show errConcat [(false, bigChunk)] = bigChunk ++ "" from rfl]
    rw [show bigChunk ++ "" = bigChunk by simp]
    rw [bigChunk, String.length_mk, List.length_replicate]
    decide
  ⟨ho,
   (C2_amended_cap_behavior.1 90000 [(true, bigChunk)] 0 (Or.inl ho)).1,
   (C2_amended_cap_behavior.1 90000 [(true, bigChunk)] 0 (Or.inl ho)).2.2.2,
   he,
   (C2_amended_cap_behavior.1 90000 [(false, bigChunk)] 0 (Or.inr he)).1,
   (C2_amended_cap_behavior.2.1 90000 [(true, bigChunk)] 0).1,
   (C2_amended_cap_behavior.2.1 90000 [(true, bigChunk)] 0).2⟩

/-- C3 counterexample: in runCodex the 5 second SIGKILL escalation timer is
never stored or cleared.  After a timeout fires and the process then closes
(a settled run), the escalation timer is still armed, so its callback fires
after the process has exited. -/
theorem C3_counterexample :
    (OpenAI.runCodexModel 90000 [ExecEvent.timerFire, ExecEvent.close 143]).result.isSome = true ∧
    (OpenAI.runCodexModel 90000 [ExecEvent.timerFire, ExecEvent.close 143]).killTimerActive = true := by
  decide

/-- C3 amended: runGemini clears both the main timer and the escalation
timer on every settling path, so neither can fire after the process has
exited; runCodex and runQwen clear only the main timer on every settling
path (the escalation timer, once armed, stays armed past process exit, its
callback merely guarded so that SIGKILL is only sent to a process not
already killed). -/
theorem C3_amended_timer_cleanup :
    (∀ (ms : Nat) (evs : List ExecEvent),
        (Gemini.runGeminiModel ms evs).result.isSome = true →
        (Gemini.runGeminiModel ms evs).timerActive = false ∧
          (Gemini.runGeminiModel ms evs).killTimerActive = false) ∧
    (∀ (ms : Nat) (evs : List ExecEvent),
        (OpenAI.runCodexModel ms evs).result.isSome = true →
        (OpenAI.runCodexModel ms evs).timerActive = false) ∧
    (∀ (ms : Nat) (evs : List ExecEvent),
        (Qwen.runQwenModel ms evs).result.isSome = true →
        (Qwen.runQwenModel ms evs).timerActive = false) := by
  refine ⟨fun ms evs => ?_, fun ms evs => ?_, fun ms evs => ?_⟩
  · exact foldlInvariant (Gemini.geminiStep ms)
      (fun st => st.result.isSome = true → st.timerActive = false ∧ st.killTimerActive = false)
      (geminiStepInv ms) evs initExecState (by intro h; simp [initExecState] at h)
  · exact foldlInvariant (OpenAI.codexStep ms)
      (fun st => st.result.isSome = true → st.timerActive = false)
      (codexStepInvMain ms) evs initExecState (by intro h; simp [initExecState] at h)
  · exact foldlInvariant (Qwen.qwenStep ms)
      (fun st => st.result.isSome = true → st.timerActive = false)
      (qwenStepInvMain ms) evs initExecState (by intro h; simp [initExecState] at h)

/-- C3 amended witness: a concrete settled run for each executor. -/
theorem C3_amended_witness :
    (Gemini.runGeminiModel 90000 [ExecEvent.close 0]).result.isSome = true ∧
    ((Gemini.runGeminiModel 90000 [ExecEvent.close 0]).timerActive = false ∧
      (Gemini.runGeminiModel 90000 [ExecEvent.close 0]).killTimerActive = false) ∧
    (OpenAI.runCodexModel 90000 [ExecEvent.close 0]).timerActive = false ∧
    (Qwen.runQwenModel 90000 [ExecEvent.close 0]).timerActive = false :=
  ⟨by decide,
   C3_amended_timer_cleanup.1 90000 [ExecEvent.close 0] (by decide),
   C3_amended_timer_cleanup.2.1 90000 [ExecEvent.close 0] (by decide),
   C3_amended_timer_cleanup.2.2 90000 [ExecEvent.close 0] (by decide)⟩

/-- C4 counterexample: a timed-out runQwen run does not resolve with a
ProcessOutcome; it rejects (the promise fails) with a timeout message
(and the resolved outcome object has no timedOut field at all). -/
theorem C4_counterexample :
    (Qwen.runQwenModel 120000 [ExecEvent.timerFire, ExecEvent.close 143]).result
      = some (Except.error ("Qwen killed after 120s timeout. Partial: ")) := by
  decide

/-- C4 amended: on normal close without a timeout the run resolves with the
accumulated stdout, stderr and the real exit code; when the main timer fired
first, the run rejects with the timeout message built from the elapsed
seconds and the partial output. -/
theorem C4_amended_resolution :
    (∀ (ms : Nat) (writes : List (Bool × String)) (c : Int),
        (OpenAI.runCodexModel ms (dataEvents writes ++ [ExecEvent.close c])).result
          = some (Except.ok ⟨outConcat writes, errConcat writes, c⟩)) ∧
    (∀ (ms : Nat) (writes : List (Bool × String)) (c : Int),
        (OpenAI.runCodexModel ms (dataEvents writes ++ [ExecEvent.timerFire, ExecEvent.close c])).result
          = some (Except.error (OpenAI.timeoutMsg ms (outConcat writes) (errConcat writes)))) ∧
    (∀ (ms : Nat) (writes : List (Bool × String)) (c : Int),
        (Qwen.runQwenModel ms (dataEvents writes ++ [ExecEvent.close c])).result
          = some (Except.ok ⟨outConcat writes, errConcat writes, c⟩)) ∧
    (∀ (ms : Nat) (writes : List (Bool × String)) (c : Int),
        (Qwen.runQwenModel ms (dataEvents writes ++ [ExecEvent.timerFire, ExecEvent.close c])).result
          = some (Except.error (Qwen.timeoutMsg ms (outConcat writes)))) := by
  refine ⟨fun ms writes c => ?_, fun ms writes c => ?_, fun ms writes c => ?_, fun ms writes c => ?_⟩
  · rw [OpenAI.runCodexModel, List.foldl_append,
      show (initExecState : ExecState) = ⟨"", "", false, true, false, none⟩ from rfl,
      codexDataFold ms writes "" ""]
    simp [OpenAI.codexStep]
  · rw [OpenAI.runCodexModel, List.foldl_append,
      show (initExecState : ExecState) = ⟨"", "", false, true, false, none⟩ from rfl,
      codexDataFold ms writes "" ""]
    simp [OpenAI.codexStep]
  · rw [Qwen.runQwenModel, List.foldl_append,
      show (initExecState : ExecState) = ⟨"", "", false, true, false, none⟩ from rfl,
      qwenDataFold ms writes "" ""]
    simp [Qwen.qwenStep]
  · rw [Qwen.runQwenModel, List.foldl_append,
      show (initExecState : ExecState) = ⟨"", "", false, true, false, none⟩ from rfl,
      qwenDataFold ms writes "" ""]
    simp [Qwen.qwenStep]

/-- C5: for a chain in which every member fails, the walk makes exactly one
attempt per member, in chain order with no retry, and the terminal result is
the last member's failure; the attempt log has exactly the chain's length.
The Fallback Chain Orchestrator is modelled from the spec (it is not code
under src/). -/
theorem C5_chain_all_fail (chain : List SpecModel.Agent)
    (hfail : ∀ a ∈ chain, SpecModel.isFailure a.behavior = true) :
    (SpecModel.chainWalk chain).1.length = chain.length ∧
    (SpecModel.chainWalk chain).1.map (fun x => x.agentName) = chain.map (fun a => a.name) ∧
    (SpecModel.chainWalk chain).1.map (fun x => x.result) = chain.map (fun a => a.behavior) ∧
    (SpecModel.chainWalk chain).2 = Option.map (fun a => a.behavior) chain.getLast? := by
  induction chain with
  | nil => simp [SpecModel.chainWalk]
  | cons a rest ih =>
      obtain ⟨an, ab⟩ := a
      cases ab with
      | success t =>
          exact absurd (hfail ⟨an, SpecModel.InvocationResult.success t⟩ (by simp))
            (by simp [SpecModel.isFailure])
      | failure k m =>
          cases rest with
          | nil => simp [SpecModel.chainWalk]
          | cons b rs =>
              have ihr := ih (fun x hx => hfail x (List.mem_cons_of_mem _ hx))
              have hw : SpecModel.chainWalk
                    (⟨an, SpecModel.InvocationResult.failure k m⟩ :: b :: rs)
                  = (⟨an, SpecModel.InvocationResult.failure k m⟩
                        :: (SpecModel.chainWalk (b :: rs)).1,
                      (SpecModel.chainWalk (b :: rs)).2) := rfl
              rw [hw]
              refine ⟨?_, ?_, ?_, ?_⟩
              · simp [ihr.1]
              · simp [ihr.2.1]
              · simp [ihr.2.2.1]
              · simp [List.getLast?_cons_cons, ihr.2.2.2]

/-- C5 witness: a concrete two-member chain of failures. -/
theorem C5_witness :
    ((SpecModel.chainWalk
        [⟨"openai", SpecModel.InvocationResult.failure "QUOTA_EXCEEDED" "quota"⟩,
         ⟨"qwen", SpecModel.InvocationResult.failure "AUTH_ERROR" "auth"⟩]).1.length = 2) ∧
    ((SpecModel.chainWalk
        [⟨"openai", SpecModel.InvocationResult.failure "QUOTA_EXCEEDED" "quota"⟩,
         ⟨"qwen", SpecModel.InvocationResult.failure "AUTH_ERROR" "auth"⟩]).2
      = some (SpecModel.InvocationResult.failure "AUTH_ERROR" "auth")) := by
  have h := C5_chain_all_fail
    [⟨"openai", SpecModel.InvocationResult.failure "QUOTA_EXCEEDED" "quota"⟩,
     ⟨"qwen", SpecModel.InvocationResult.failure "AUTH_ERROR" "auth"⟩]
    (by decide)
  exact ⟨h.1, by rw [h.2.2.2]; decide⟩

/-- C6 counterexample: the openai classifier produces the kind
MODEL_NOT_SUPPORTED, which is not a member of the spec's enumeration
(which has MODEL_UNSUPPORTED instead, and lacks AUTH_EXPIRED and
AUTH_ERROR as well). -/
theorem C6_counterexample :
    OpenAI.detectError ("not supported when using codex with a chatgpt account")
      = some ⟨"MODEL_NOT_SUPPORTED", "This model is not available with ChatGPT Plus. Use the default model."⟩ ∧
    ¬ ("MODEL_NOT_SUPPORTED" ∈ SpecModel.specClassifiedErrorKinds) := by
  exact ⟨by decide, by decide⟩

/-- C6 amended: each agent's classifier returns null or an error whose kind
belongs to that agent's own small set: openai in QUOTA_EXCEEDED,
MODEL_NOT_SUPPORTED, AUTH_EXPIRED; qwen in QUOTA_EXCEEDED, AUTH_ERROR,
MODEL_NOT_FOUND; gemini in QUOTA_EXCEEDED, AUTH_REQUIRED. -/
theorem C6_amended_kinds :
    (∀ (t : String) (e : DetectedError), OpenAI.detectError t = some e →
        e.errorType ∈ ["QUOTA_EXCEEDED", "MODEL_NOT_SUPPORTED", "AUTH_EXPIRED"]) ∧
    (∀ (t : String) (e : DetectedError), Qwen.detectError t = some e →
        e.errorType ∈ ["QUOTA_EXCEEDED", "AUTH_ERROR", "MODEL_NOT_FOUND"]) ∧
    (∀ (t : String) (e : DetectedError), Gemini.detectError t = some e →
        e.errorType ∈ ["QUOTA_EXCEEDED", "AUTH_REQUIRED"]) := by
  refine ⟨fun t e h => ?_, fun t e h => ?_, fun t e h => ?_⟩
  · simp only [OpenAI.detectError] at h
    split_ifs at h <;> simp_all <;> subst h <;> simp
  · simp only [Qwen.detectError] at h
    split_ifs at h <;> simp_all <;> subst h <;> simp
  · simp only [Gemini.detectError] at h
    split_ifs at h <;> simp_all <;> subst h <;> simp

/-- C6 amended witness: a concrete classification for each agent lands in
that agent's kind set. -/
theorem C6_amended_witness :
    (("QUOTA_EXCEEDED" : String) ∈ ["QUOTA_EXCEEDED", "MODEL_NOT_SUPPORTED", "AUTH_EXPIRED"]) ∧
    (("MODEL_NOT_FOUND" : String) ∈ ["QUOTA_EXCEEDED", "AUTH_ERROR", "MODEL_NOT_FOUND"]) ∧
    (("AUTH_REQUIRED" : String) ∈ ["QUOTA_EXCEEDED", "AUTH_REQUIRED"]) :=
  ⟨C6_amended_kinds.1 "usage limit"
      ⟨"QUOTA_EXCEEDED", "Codex usage limit reached. Credits reset at: unknown. Use a fallback provider."⟩
      (by decide),
   C6_amended_kinds.2.1 "model not found"
      ⟨"MODEL_NOT_FOUND", "Qwen model not found. Available models: qwen-turbo, qwen-plus, qwen-long."⟩
      (by decide),
   C6_amended_kinds.2.2 "not authenticated"
      ⟨"AUTH_REQUIRED", "Gemini not authenticated. Run " ++ apos ++ "gemini" ++ apos ++ " in terminal to login via Google account."⟩
      (by decide)⟩

/-- C7: each chat handler classifies the combined stdout+stderr of every
completed run regardless of the exit code, so a run that exits 0 with a
valid non-empty response whose own text contains an error pattern is turned
into an isError QUOTA_EXCEEDED result and the response text is discarded:
universally for qwen and gemini on "rate limit", and at a concrete exit-0
run for openai on its quota pattern "usage limit". -/
theorem C7_classifier_overrides_success :
    (∀ (so se : String) (c : Int), jsIncludes (jsToLower (so ++ se)) "rate limit" = true →
        Qwen.qwen_chat (Except.ok ⟨so, se, c⟩)
          = ⟨"Qwen API quota exceeded. Check your DashScope account limits.", true⟩) ∧
    (∀ (so se : String) (c : Int), jsIncludes (jsToLower (so ++ se)) "rate limit" = true →
        Gemini.gemini_chat (Except.ok ⟨so, se, c⟩)
          = ⟨"Gemini daily quota exceeded. Free tier: 1000 req/day. Try again tomorrow or use a fallback provider.", true⟩) ∧
    (jsTrim ("The usage limit applies to each account.") ≠ "" ∧
      OpenAI.openai_chat (Except.ok ⟨"The usage limit applies to each account.", "", 0⟩) ""
        = ⟨"Codex usage limit reached. Credits reset at: unknown. Use a fallback provider.", true⟩) := by
  refine ⟨fun so se c h => ?_, fun so se c h => ?_, by decide, by decide⟩
  · simp [Qwen.qwen_chat, Qwen.detectError, Qwen.quotaPred, h]
  · simp [Gemini.gemini_chat, Gemini.detectError, Gemini.quotaPred, h]

/-- C7 witness: a concrete exit-0 run with non-empty stdout containing
"rate limit" is classified for qwen and gemini. -/
theorem C7_witness :
    jsIncludes (jsToLower ("the rate limit is 10 rps" ++ "")) "rate limit" = true ∧
    Qwen.qwen_chat (Except.ok ⟨"the rate limit is 10 rps", "", 0⟩)
      = ⟨"Qwen API quota exceeded. Check your DashScope account limits.", true⟩ ∧
    Gemini.gemini_chat (Except.ok ⟨"the rate limit is 10 rps", "", 0⟩)
      = ⟨"Gemini daily quota exceeded. Free tier: 1000 req/day. Try again tomorrow or use a fallback provider.", true⟩ :=
  ⟨by decide,
   C7_classifier_overrides_success.1 "the rate limit is 10 rps" "" 0 (by decide),
   C7_classifier_overrides_success.2.1 "the rate limit is 10 rps" "" 0 (by decide)⟩

/-- C8: when a run completes without a classified error, an empty extracted
response text yields the empty-response error result (the isError "No
response from ..." message, which is how the code realizes
Failure EMPTY_RESPONSE), and a non-empty one yields a success result with
that text; in particular a run with exit code 0 and empty stdout and stderr
yields the empty-response error result. -/
theorem C8_empty_response :
    (∀ (so se : String) (c : Int), Qwen.detectError (so ++ se) = none →
        (jsTrim so = "" →
          Qwen.qwen_chat (Except.ok ⟨so, se, c⟩)
            = ⟨"No response from Qwen. Exit: " ++ toString c ++ ". Stderr: " ++ jsSliceNeg se 300, true⟩) ∧
        (jsTrim so ≠ "" →
          Qwen.qwen_chat (Except.ok ⟨so, se, c⟩) = ⟨jsTrim so, false⟩)) ∧
    (∀ (so se f : String) (c : Int), OpenAI.detectError (so ++ se) = none →
        (OpenAI.extractResponse so f = "" →
          OpenAI.openai_chat (Except.ok ⟨so, se, c⟩) f
            = ⟨"No response from Codex. Exit code: " ++ toString c ++ ". Output: " ++ jsSliceNeg (so ++ se) 300, true⟩) ∧
        (OpenAI.extractResponse so f ≠ "" →
          OpenAI.openai_chat (Except.ok ⟨so, se, c⟩) f = ⟨OpenAI.extractResponse so f, false⟩)) ∧
    Qwen.qwen_chat (Except.ok ⟨"", "", 0⟩) = ⟨"No response from Qwen. Exit: 0. Stderr: ", true⟩ := by
  refine ⟨fun so se c hd => ⟨fun h => ?_, fun h => ?_⟩,
    fun so se f c hd => ⟨fun h => ?_, fun h => ?_⟩, by decide⟩
  · simp [Qwen.qwen_chat, hd, h]
  · simp [Qwen.qwen_chat, hd, h]
  · simp [OpenAI.openai_chat, hd, h]
  · simp [OpenAI.openai_chat, hd, h]

/-- C8 witness: the universal parts applied at concrete runs (empty and
non-empty). -/
theorem C8_witness :
    Qwen.detectError ("" ++ "hello") = none ∧ jsTrim "" = "" ∧
    Qwen.qwen_chat (Except.ok ⟨"", "hello", 2⟩)
      = ⟨"No response from Qwen. Exit: 2. Stderr: hello", true⟩ ∧
    OpenAI.detectError ("hi" ++ "") = none ∧ OpenAI.extractResponse "hi" "" ≠ "" ∧
    OpenAI.openai_chat (Except.ok ⟨"hi", "", 0⟩) "" = ⟨OpenAI.extractResponse "hi" "", false⟩ :=
  ⟨by decide, by decide,
   by
     have h := (C8_empty_response.1 "" "hello" 2 (by decide)).1 (by decide)
     simpa using h,
   by decide, by decide,
   (C8_empty_response.2.1 "hi" "" "" 0 (by decide)).2 (by decide)⟩

/-- C9: the classifier rules form an ordered list and the first matching
rule wins: for the cited agents (qwen and gemini), any text matching both
the quota rule and the auth rule classifies as QUOTA_EXCEEDED, the earlier
rule; and any text matching none of the agent's rules classifies as null. -/
theorem C9_first_rule_wins :
    (∀ (t : String), Qwen.quotaPred (jsToLower t) = true → Qwen.authPred (jsToLower t) = true →
        Qwen.detectError t
          = some ⟨"QUOTA_EXCEEDED", "Qwen API quota exceeded. Check your DashScope account limits."⟩) ∧
    (∀ (t : String), Qwen.quotaPred (jsToLower t) = false → Qwen.authPred (jsToLower t) = false →
        Qwen.modelPred (jsToLower t) = false → Qwen.detectError t = none) ∧
    (∀ (t : String), Gemini.quotaPred (jsToLower t) = true → Gemini.authPred (jsToLower t) = true →
        Gemini.detectError t
          = some ⟨"QUOTA_EXCEEDED", "Gemini daily quota exceeded. Free tier: 1000 req/day. Try again tomorrow or use a fallback provider."⟩) ∧
    (∀ (t : String), Gemini.quotaPred (jsToLower t) = false → Gemini.authPred (jsToLower t) = false →
        Gemini.detectError t = none) := by
  refine ⟨fun t h1 h2 => ?_, fun t h1 h2 h3 => ?_, fun t h1 h2 => ?_, fun t h1 h2 => ?_⟩
  · simp [Qwen.detectError, h1]
  · simp [Qwen.detectError, h1, h2, h3]
  · simp [Gemini.detectError, h1]
  · simp [Gemini.detectError, h1, h2]

/-- C9 witness: a text matching both the quota and the auth patterns is
classified QUOTA_EXCEEDED, and a text matching no rule is classified null,
for both cited agents. -/
theorem C9_witness :
    Qwen.quotaPred (jsToLower ("rate limit after authentication")) = true ∧
    Qwen.authPred (jsToLower ("rate limit after authentication")) = true ∧
    Qwen.detectError ("rate limit after authentication")
      = some ⟨"QUOTA_EXCEEDED", "Qwen API quota exceeded. Check your DashScope account limits."⟩ ∧
    Qwen.detectError ("all good") = none ∧
    Gemini.detectError ("rate limit after authentication")
      = some ⟨"QUOTA_EXCEEDED", "Gemini daily quota exceeded. Free tier: 1000 req/day. Try again tomorrow or use a fallback provider."⟩ ∧
    Gemini.detectError ("all good") = none :=
  ⟨by decide, by decide,
   C9_first_rule_wins.1 "rate limit after authentication" (by decide) (by decide),
   C9_first_rule_wins.2.1 "all good" (by decide) (by decide) (by decide),
   C9_first_rule_wins.2.2.1 "rate limit after authentication" (by decide) (by decide),
   C9_first_rule_wins.2.2.2 "all good" (by decide) (by decide)⟩

/-- C10: each classifier is a pure function of its input text (modelled as a
function, faithfully to the source, which reads nothing but its argument),
and matching is case-insensitive: two inputs with the same lower-casing
classify identically — fully for qwen and gemini, and up to the error kind
for openai, whose quota message embeds a date extracted case-sensitively. -/
theorem C10_pure_case_insensitive :
    (∀ (s t : String), jsToLower s = jsToLower t →
        Qwen.detectError s = Qwen.detectError t) ∧
    (∀ (s t : String), jsToLower s = jsToLower t →
        Gemini.detectError s = Gemini.detectError t) ∧
    (∀ (s t : String), jsToLower s = jsToLower t →
        Option.map (fun e => e.errorType) (OpenAI.detectError s)
          = Option.map (fun e => e.errorType) (OpenAI.detectError t)) := by
  refine ⟨fun s t h => ?_, fun s t h => ?_, fun s t h => ?_⟩
  · simp only [Qwen.detectError]
    rw [h]
  · simp only [Gemini.detectError]
    rw [h]
  · simp only [OpenAI.detectError]
    rw [h]
    split_ifs <;> simp

/-- C10 witness: upper- and lower-case variants of the same text classify
identically. -/
theorem C10_witness :
    jsToLower ("Rate Limit") = jsToLower ("rate limit") ∧
    Qwen.detectError ("Rate Limit") = Qwen.detectError ("rate limit") ∧
    Gemini.detectError ("Rate Limit") = Gemini.detectError ("rate limit") ∧
    Option.map (fun e => e.errorType) (OpenAI.detectError ("Usage Limit"))
      = Option.map (fun e => e.errorType) (OpenAI.detectError ("usage limit")) :=
  ⟨by decide,
   C10_pure_case_insensitive.1 "Rate Limit" "rate limit" (by decide),
   C10_pure_case_insensitive.2.1 "Rate Limit" "rate limit" (by decide),
   C10_pure_case_insensitive.2.2 "Usage Limit" "usage limit" (by decide)⟩
